import Mathlib

/-!
# OrbitalOS — verification of the spec claims against a shallow embedding

Shallow embedding of the satellite-tracking core of the repository
(`src/backend/sat_api/src/`): the catalog tracker (`tracker.rs`, `api.rs`,
`tle.rs`), the conjunction analyzer (`conjunction.rs`), the logistic risk
model (`ml.rs`), the alert stream filter (`handlers.rs`, `alerts.rs`) and
the orbit-reservation engine (`reservation.rs`).

Modelling conventions:
* `u64` catalog ids are `ℕ`; UTC instants are `ℤ` (unix seconds).
* `f64` values are modelled as real numbers `ℝ` (exact arithmetic; the
  claims settled over `ℝ` hold with wide margins, and no NaN/infinity is
  produced on the paths the claims exercise).  Where a claim needs a
  decidable concrete evaluation of pure comparisons (the conjunction
  output ordering) the scalar is modelled as `ℚ`.
* `HashMap` tables are association lists whose `insert` replaces an
  existing binding in place, which matches the observable behaviour
  (unique keys, lookup returns the last inserted value).
* Rust's stable `sort_by` / `sort_by_key` is modelled by
  `List.insertionSort` with a non-strict comparison, which is extensionally
  equal to any stable sort for a total preorder.
-/

namespace OrbitalOS

/-! ## Satellite data (src/backend/sat_api/src/tle.rs, `SatelliteData`) -/

/-- `SatelliteData` from `tle.rs`: a parsed element set. -/
structure SatelliteData where
  norad_id : ℕ
  name : String
  tle_line1 : String
  tle_line2 : String
  last_updated : ℤ
deriving DecidableEq

/-- The error enum `SatApiError` from `tle.rs` (constructors that matter to
the claims; the payloads of the remaining constructors are irrelevant). -/
inductive SatApiError where
  | tleParseError (msg : String)
  | propagationError (msg : String)
  | noSatelliteData
  | satelliteNotFound (id : ℕ)
deriving DecidableEq

/-! ## Catalog (src/backend/sat_api/src/tracker.rs, `SatelliteTracker`)

The tracker's `satellites: HashMap<u64, TrackedSatellite>` is modelled as an
association list with in-place replacing insert; the SGP4 `Elements` /
`Constants` of a `TrackedSatellite` are opaque to every claim, so an entry
stores just the `SatelliteData`. -/

/-- The catalog table: `HashMap<u64, TrackedSatellite>`. -/
abbrev Catalog := List (ℕ × SatelliteData)

/-- `HashMap::insert`: replace the binding for `k` if present, otherwise add
it.  (Association-list model of the hash map; bucket order is irrelevant to
every observation the code makes.) -/
def catInsert (m : Catalog) (k : ℕ) (v : SatelliteData) : Catalog :=
  if m.any (fun p => p.1 == k) then
    m.map (fun p => if p.1 == k then (k, v) else p)
  else
    m ++ [(k, v)]

/-- `HashMap::get`: lookup by catalog id. -/
def catLookup (m : Catalog) (k : ℕ) : Option SatelliteData :=
  (m.find? (fun p => p.1 == k)).map (·.2)

/-- `SatelliteTracker::load_satellites` (tracker.rs:24-76).  The method
*first clears* the satellite table (`self.satellites.clear()`), then walks
the input in order, skipping element sets whose SGP4 initialization fails
(`initOk s = false` models `Elements::from_tle` / `Constants::from_elements`
failing) and inserting the rest; if zero insertions happened it returns
`Err(NoSatelliteData)`.  The previous catalog `prev` is discarded
unconditionally — also on the error path.  Returns the table as left by the
method together with its `Result`. -/
def loadSatellites (initOk : SatelliteData → Bool) (input : List SatelliteData)
    (_prev : Catalog) : Catalog × Option SatApiError :=
  let loaded : Catalog :=
    (input.filter initOk).foldl (fun m s => catInsert m s.norad_id s) []
  let inserted := (input.filter initOk).length
  (loaded, if inserted = 0 then some SatApiError.noSatelliteData else none)

/-! ## Multi-group fetch composition (tle.rs / api.rs)

`fetch_active_satellites` (tle.rs:92-100), `fetch_communication_satellites`,
`fetch_navigation_satellites` and the background update in
`api.rs:260-262` all compose group results by
`sort_by_key(|s| s.norad_id)` followed by `dedup_by_key(|s| s.norad_id)`. -/

/-- The key order used by `sort_by_key(|s| s.norad_id)`. -/
def byNoradLe (a b : SatelliteData) : Prop := a.norad_id ≤ b.norad_id

instance : DecidableRel byNoradLe := fun a b =>
  inferInstanceAs (Decidable (a.norad_id ≤ b.norad_id))

instance : IsTotal SatelliteData byNoradLe :=
  ⟨fun a b => Nat.le_total a.norad_id b.norad_id⟩

instance : IsTrans SatelliteData byNoradLe :=
  ⟨fun _ _ _ h₁ h₂ => Nat.le_trans h₁ h₂⟩

/-- `Vec::dedup_by_key(|s| s.norad_id)`: drop every element equal (by key) to
the last kept element, i.e. collapse each run of equal keys to its first
element. -/
def dedupByKey : List SatelliteData → List SatelliteData
  | [] => []
  | a :: rest =>
      a :: dedupByKey (rest.dropWhile (fun b => b.norad_id == a.norad_id))
termination_by l => l.length
decreasing_by
  simp only [List.length_cons]
  exact Nat.lt_succ_of_le (List.dropWhile_sublist _).length_le

/-- Composition of multi-group fetch results:
`sort_by_key(norad_id)` (stable) then `dedup_by_key(norad_id)`. -/
def fetchCompose (l : List SatelliteData) : List SatelliteData :=
  dedupByKey (List.insertionSort byNoradLe l)

/-- One round of the background update task
(`SatelliteApi::start_background_updates`, api.rs:227-286): the fetched
lists are concatenated, sorted and deduped by norad id; if the result is
empty the existing catalog is retained (`continue` before touching the
tracker), otherwise `load_satellites` runs on the tracker — also when it
then fails, in which case the table it left behind (cleared) persists. -/
def backgroundUpdateStep (initOk : SatelliteData → Bool)
    (fetched : List SatelliteData) (cat : Catalog) : Catalog :=
  let deduped := fetchCompose fetched
  if deduped.isEmpty then cat
  else (loadSatellites initOk deduped cat).1

/-! ## Conjunction analysis (src/backend/sat_api/src/conjunction.rs) -/

/-- The fields of `ConjunctionEvent` the output-ordering logic of
`analyze_conjunctions` observes.  `pc` is modelled as `ℚ` (the comparator
`b.pc.partial_cmp(&a.pc)` is a pure total comparison on the non-NaN floats
produced by `calculate_collision_probability`), `tca` as a unix second. -/
structure ConjunctionEventO where
  satellite_a : ℕ
  satellite_b : ℕ
  tca : ℤ
  pc : ℚ
deriving DecidableEq

/-- The descending-`pc` order used by
`conjunctions.sort_by(|a, b| b.pc.partial_cmp(&a.pc))` (conjunction.rs:164). -/
def byPcDesc (a b : ConjunctionEventO) : Prop := b.pc ≤ a.pc

instance : DecidableRel byPcDesc := fun a b =>
  inferInstanceAs (Decidable (b.pc ≤ a.pc))

instance : IsTotal ConjunctionEventO byPcDesc :=
  ⟨fun a b => le_total b.pc a.pc⟩

instance : IsTrans ConjunctionEventO byPcDesc :=
  ⟨fun _ _ _ h₁ h₂ => le_trans h₂ h₁⟩

/-- The event-list post-processing of `analyze_conjunctions`
(conjunction.rs:151-173): keep the events whose `pc` reaches the
probability threshold, then stable-sort by `pc` descending.  Rust's
`sort_by` is stable; `insertionSort` with the non-strict comparison
`byPcDesc` is the same function. -/
def conjunctionsOrdered (threshold : ℚ) (events : List ConjunctionEventO) :
    List ConjunctionEventO :=
  List.insertionSort byPcDesc (events.filter (fun e => threshold ≤ e.pc))

/-- The covariance-analysis fields read by
`calculate_collision_probability`: the 3×3 projection of the combined
covariance onto the collision plane. -/
structure CovarianceAnalysis where
  collision_plane_projection : Fin 3 → Fin 3 → ℝ

/-- `ConjunctionAnalyzer::calculate_collision_probability`
(conjunction.rs:479-510), verbatim: a 5 m hard-body radius, the 2×2
determinant of the in-plane projection, the (unused) Mahalanobis quantity,
the circular-approximation probability and the relative-speed dilution
factor. -/
noncomputable def calculate_collision_probability (dmin_km : ℝ)
    (covariance : CovarianceAnalysis) (relative_speed_km_s : ℝ) : ℝ :=
  let hard_body_radius_km : ℝ := 0.005
  let collision_area_km2 := Real.pi * hard_body_radius_km ^ 2
  let det := covariance.collision_plane_projection 0 0 *
      covariance.collision_plane_projection 1 1 -
      (covariance.collision_plane_projection 0 1) ^ 2
  if det ≤ 0 then 0
  else
    -- `let _mahalanobis_sq = dmin_km.powi(2) / det.sqrt();` — computed and
    -- discarded by the source; kept here for fidelity.
    let _mahalanobisSq := dmin_km ^ 2 / Real.sqrt det
    let pc := 1 - Real.exp (-collision_area_km2 / (2 * Real.pi * Real.sqrt det))
    let dilution_factor := min (relative_speed_km_s / 10) 1
    pc * dilution_factor

/-! ## Risk model (src/backend/sat_api/src/ml.rs) -/

/-- `f64::clamp`. -/
noncomputable def clampR (x lo hi : ℝ) : ℝ := min (max x lo) hi

/-- `RiskModelParameters` (ml.rs:10-16).  `last_updated` is untouched by the
claims and omitted; `observation_count`'s `u64` saturation point is never
reached on the paths considered. -/
structure RiskModelParameters where
  bias : ℝ
  coefficients : Fin 4 → ℝ
  observation_count : ℕ

/-- `RiskModel` (ml.rs:48-54); the persistence path plays no role in the
in-memory arithmetic. -/
structure RiskModel where
  params : RiskModelParameters
  learning_rate : ℝ
  l2_penalty : ℝ

/-- The linear score `z = bias + Σ wᵢ·xᵢ` accumulated by `predict`. -/
def RiskModel.z (m : RiskModel) (features : Fin 4 → ℝ) : ℝ :=
  m.params.bias + ∑ i, m.params.coefficients i * features i

/-- `RiskModel::predict` (ml.rs:128-134): the logistic `1/(1+exp(-z))`. -/
noncomputable def RiskModel.predict (m : RiskModel) (features : Fin 4 → ℝ) : ℝ :=
  1 / (1 + Real.exp (-(m.z features)))

/-- `RiskModel::update` (ml.rs:136-155): one clipped SGD step with L2
regularization.  (The periodic `persist()` is I/O and does not touch the
parameters.) -/
noncomputable def RiskModel.update (m : RiskModel) (features : Fin 4 → ℝ)
    (label : ℝ) : RiskModel :=
  let prediction := m.predict features
  let error := clampR (prediction - label) (-50) 50
  { m with
    params :=
      { bias := m.params.bias -
          m.learning_rate * (error + m.l2_penalty * m.params.bias)
        coefficients := fun idx => m.params.coefficients idx -
          m.learning_rate *
            (error * features idx + m.l2_penalty * m.params.coefficients idx)
        observation_count := m.params.observation_count + 1 } }

/-- The cold-start model built by `RiskModel::load_or_default`
(ml.rs:82-107) when no persisted state exists: bias `-3.125`, coefficients
`[-2.75, 0.42, 0.18, 2.10]`, `η = 5e-3`, `λ = 5e-4`. -/
noncomputable def defaultRiskModel : RiskModel :=
  { params :=
      { bias := -3.125
        coefficients := ![-2.75, 0.42, 0.18, 2.10]
        observation_count := 0 }
    learning_rate := 5e-3
    l2_penalty := 5e-4 }

/-- The feature vector of the cold-start scenario (§8 seed test 5):
`[0.01, 14.0, 72.0, 0.9]`. -/
noncomputable def coldStartFeatures : Fin 4 → ℝ := ![0.01, 14.0, 72.0, 0.9]

/-- The model after `n` successive `update(coldStartFeatures, 0.0)` calls
starting from the cold-start defaults. -/
noncomputable def coldStartModelAfter : ℕ → RiskModel
  | 0 => defaultRiskModel
  | n + 1 => (coldStartModelAfter n).update coldStartFeatures 0

/-! ## Alert stream (src/backend/sat_api/src/handlers.rs, alerts.rs)

`AlertHub` (alerts.rs:39-52) is a broadcast channel: every published alert
reaches every subscriber's stream.  `stream_alerts` (handlers.rs:544-588)
then filters the subscriber's stream per alert; the predicate below is that
filter's condition, so an alert is forwarded to a subscriber bound to
`subscriberTenant` exactly when the predicate holds. -/

/-- `"default"`, the pseudo-tenant (handlers.rs:100). -/
def defaultTenant : String := "default"

/-- The per-alert delivery condition inside `stream_alerts`
(handlers.rs:557-559): `alert.tenant_id == tenant_filter ||
(allow_default && alert.tenant_id == DEFAULT_TENANT)` where
`allow_default = tenant_filter == DEFAULT_TENANT`. -/
def shouldDeliverAlert (subscriberTenant alertTenant : String) : Bool :=
  alertTenant == subscriberTenant ||
    (subscriberTenant == defaultTenant && alertTenant == defaultTenant)

/-! ## Reservation engine (src/backend/sat_api/src/reservation.rs) -/

/-- `ReservationType` (reservation.rs:31-38). -/
inductive ReservationType where
  | launchCorridor
  | operationalSlot
  | deorbitPath
  | maintenanceBBox
  | safetyZone
deriving DecidableEq

/-- `PriorityLevel` (reservation.rs:40-46). -/
inductive PriorityLevel where
  | critical
  | high
  | medium
  | low
deriving DecidableEq

/-- `ReservationStatus` (reservation.rs:48-55). -/
inductive ReservationStatus where
  | pending
  | active
  | expired
  | cancelled
  | violated
deriving DecidableEq

/-- `CoordinateSystem` (reservation.rs:66-71). -/
inductive CoordinateSystem where
  | eci
  | ecef
  | rtn
deriving DecidableEq

/-- `ConflictSeverity` (reservation.rs:106-112); the derived `PartialOrd`
orders the variants by declaration: `Low < Medium < High < Critical`. -/
inductive ConflictSeverity where
  | low
  | medium
  | high
  | critical
deriving DecidableEq

/-- The position of a severity in the derived `PartialOrd` order. -/
def ConflictSeverity.rank : ConflictSeverity → ℕ
  | .low => 0
  | .medium => 1
  | .high => 2
  | .critical => 3

/-- `ConflictType` (reservation.rs:98-104). -/
inductive ConflictType where
  | directCollision
  | closeApproach
  | operationalInterference
  | debrisRisk
deriving DecidableEq

/-- `ReservationConstraints` (reservation.rs:57-64). -/
structure ReservationConstraints where
  max_conjunction_probability : ℝ
  minimum_separation_km : ℝ
  notification_threshold_hours : ℕ
  allow_debris_tracking : Bool
  coordinate_system : CoordinateSystem

/-- The fields of `ReservationConflict` (reservation.rs:73-87) the claims
observe.  (`conflict_id`, the conflicting-satellite descriptor, duration and
the mitigation suggestions are carried along by the code but inspected by no
claim.) -/
structure ReservationConflict where
  conflicting_norad_id : ℕ
  conflict_type : ConflictType
  severity : ConflictSeverity
  time_of_closest_approach : ℤ
  minimum_distance_km : ℝ
  collision_probability : ℝ
  analytical_probability : ℝ
  ml_probability : ℝ

/-- `NewLaunchRequest` (reservation.rs:157-169). -/
structure NewLaunchRequest where
  vehicle_name : String
  epoch : ℤ
  perigee_alt_km : ℝ
  apogee_alt_km : ℝ
  inclination_deg : ℝ
  raan_deg : ℝ
  arg_perigee_deg : ℝ
  mean_anomaly_deg : ℝ
  proposed_norad_id : Option ℕ

/-- `LaunchProfile` (reservation.rs:171-184). -/
structure LaunchProfile where
  vehicle_name : String
  epoch : ℤ
  perigee_alt_km : ℝ
  apogee_alt_km : ℝ
  inclination_deg : ℝ
  raan_deg : ℝ
  arg_perigee_deg : ℝ
  mean_anomaly_deg : ℝ
  eccentricity : ℝ
  mean_motion_rev_per_day : ℝ
  assigned_norad_id : ℕ

/-- `OrbitReservation` (reservation.rs:15-29); `Uuid` is modelled as `ℕ`
(fresh ids are injected by the caller in this embedding, standing for
`Uuid::new_v4()`). -/
structure OrbitReservation where
  id : ℕ
  owner : String
  reservation_type : ReservationType
  start_time : ℤ
  end_time : ℤ
  center_tle : SatelliteData
  protection_radius_km : ℝ
  priority_level : PriorityLevel
  status : ReservationStatus
  created_at : ℤ
  constraints : ReservationConstraints
  launch_profile : Option LaunchProfile

/-- `CreateReservationRequest` (reservation.rs:144-155). -/
structure CreateReservationRequest where
  owner : String
  reservation_type : ReservationType
  start_time : ℤ
  end_time : ℤ
  center_tle : Option SatelliteData
  new_launch : Option NewLaunchRequest
  protection_radius_km : ℝ
  priority_level : PriorityLevel
  constraints : Option ReservationConstraints

/-- The in-memory reservation index
(`reservations: HashMap<Uuid, OrbitReservation>`). -/
abbrev ReservationStore := List (ℕ × OrbitReservation)

/-- `EARTH_RADIUS_KM` (reservation.rs:12). -/
noncomputable def earthRadiusKm : ℝ := 6378.137

/-- `MU_KM3_S2` (reservation.rs:13). -/
noncomputable def muKm3S2 : ℝ := 398600.4418

/-- `OrbitReservationManager::build_launch_satellite` (reservation.rs:268-335):
validate `apogee ≥ perigee`, derive the orbit, assign a catalog id and emit
the synthesized satellite plus its launch profile.  The epoch/eccentricity
TLE column formatting of `line1`/`line2` is pure string rendering that no
claim observes and is elided (empty strings stand for the rendered lines).
`now` models `Utc::now()` (used only for the fallback catalog id). -/
noncomputable def build_launch_satellite (launch : NewLaunchRequest) (now : ℤ) :
    Except String (SatelliteData × LaunchProfile) :=
  if launch.apogee_alt_km < launch.perigee_alt_km then
    .error "apogee_alt_km must be greater than or equal to perigee_alt_km"
  else
    let perigee_radius := earthRadiusKm + launch.perigee_alt_km
    let apogee_radius := earthRadiusKm + launch.apogee_alt_km
    let semi_major_axis := (perigee_radius + apogee_radius) / 2
    let eccentricity :=
      min |(apogee_radius - perigee_radius) / (apogee_radius + perigee_radius)| 0.99
    let mean_motion_rad_s := Real.sqrt (muKm3S2 / semi_major_axis ^ 3)
    let mean_motion_rev_per_day := mean_motion_rad_s * 86400 / (2 * Real.pi)
    let norad_id := launch.proposed_norad_id.getD (900000 + now.natAbs % 100000)
    let satellite : SatelliteData :=
      { norad_id := norad_id
        name := launch.vehicle_name
        tle_line1 := ""
        tle_line2 := ""
        last_updated := launch.epoch }
    let profile : LaunchProfile :=
      { vehicle_name := launch.vehicle_name
        epoch := launch.epoch
        perigee_alt_km := launch.perigee_alt_km
        apogee_alt_km := launch.apogee_alt_km
        inclination_deg := launch.inclination_deg
        raan_deg := launch.raan_deg
        arg_perigee_deg := launch.arg_perigee_deg
        mean_anomaly_deg := launch.mean_anomaly_deg
        eccentricity := eccentricity
        mean_motion_rev_per_day := mean_motion_rev_per_day
        assigned_norad_id := norad_id }
    .ok (satellite, profile)

/-- `OrbitReservationManager::resolve_center_satellite`
(reservation.rs:253-266): an explicit TLE wins; otherwise a `new_launch`
spec is synthesized; otherwise the request is invalid. -/
noncomputable def resolve_center_satellite (request : CreateReservationRequest)
    (now : ℤ) : Except String (SatelliteData × Option LaunchProfile) :=
  match request.center_tle with
  | some tle => .ok (tle, none)
  | none =>
    match request.new_launch with
    | some launch =>
        (build_launch_satellite launch now).map (fun p => (p.1, some p.2))
    | none =>
        .error "Reservation requires either an existing TLE or a new_launch specification"

/-- The default constraints synthesized by `create_reservation`
(reservation.rs:357-370) when the request carries none. -/
noncomputable def defaultConstraints (priority : PriorityLevel)
    (protection_radius_km : ℝ) : ReservationConstraints :=
  { max_conjunction_probability :=
      match priority with
      | .critical => 1e-6
      | .high => 1e-5
      | .medium => 1e-4
      | .low => 1e-3
    minimum_separation_km := protection_radius_km
    notification_threshold_hours := 24
    allow_debris_tracking := true
    coordinate_system := .eci }

/-- The `OrbitReservation` record assembled by `create_reservation`
(reservation.rs:372-385) once the center satellite is resolved. -/
noncomputable def reservationOfRequest (request : CreateReservationRequest)
    (center : SatelliteData) (profile : Option LaunchProfile)
    (reservationId : ℕ) (now : ℤ) : OrbitReservation :=
  { id := reservationId
    owner := request.owner
    reservation_type := request.reservation_type
    start_time := request.start_time
    end_time := request.end_time
    center_tle := center
    protection_radius_km := request.protection_radius_km
    priority_level := request.priority_level
    status := .pending
    created_at := now
    constraints :=
      request.constraints.getD
        (defaultConstraints request.priority_level request.protection_radius_km)
    launch_profile := profile }

/-- `OrbitReservationManager::create_reservation` (reservation.rs:348-397):
resolve the center satellite (the only validation performed), build the
record and insert it into the index.  Errors are wrapped in
`SatApiError::TleParseError`.  `reservationId` models the fresh
`Uuid::new_v4()` (never colliding with stored keys, so the `HashMap` insert
is an append); `now` models `Utc::now()`. -/
noncomputable def create_reservation (request : CreateReservationRequest)
    (reservationId : ℕ) (now : ℤ) (store : ReservationStore) :
    Except SatApiError OrbitReservation × ReservationStore :=
  match resolve_center_satellite request now with
  | .error msg => (.error (SatApiError.tleParseError msg), store)
  | .ok (center, profile) =>
    let reservation := reservationOfRequest request center profile reservationId now
    (.ok reservation, store ++ [(reservationId, reservation)])

/-! ### Conflict evaluation (reservation.rs:413-466, 704-771)

The per-satellite numeric screening (`check_satellite_conflict`) and the
toy propagator (`propagate_to_eci`) enter the claims only through the
conflicts they emit, so `evaluate_conflicts_internal` is embedded
parametrically in the per-satellite checker, and the overlap check is
parametric in the propagator. -/

/-- A propagator: ECI position of a satellite at a unix instant, as
`propagate_to_eci` (reservation.rs:774-811) supplies it. -/
def EciPropagator := SatelliteData → ℤ → (Fin 3 → ℝ)

/-- Euclidean norm of a 3-vector (`nalgebra`'s `Vector3::norm`). -/
noncomputable def norm3 (v : Fin 3 → ℝ) : ℝ :=
  Real.sqrt (v 0 ^ 2 + v 1 ^ 2 + v 2 ^ 2)

/-- `OrbitReservationManager::check_reservation_overlap`
(reservation.rs:704-771): no conflict unless the time windows overlap; a
single sample at the midpoint of the overlap decides spatial conflict; the
severity is `High` when either reservation has `Critical` priority and
`Medium` otherwise; the probability fields are zero. -/
noncomputable def check_reservation_overlap (pos : EciPropagator)
    (reservation other : OrbitReservation) : Option ReservationConflict :=
  if reservation.end_time < other.start_time ∨
      reservation.start_time > other.end_time then
    none
  else
    let overlap_start := max reservation.start_time other.start_time
    let overlap_end := min reservation.end_time other.end_time
    let mid_time := overlap_start + (overlap_end - overlap_start) / 2
    let pos_a := pos reservation.center_tle mid_time
    let pos_b := pos other.center_tle mid_time
    let distance := norm3 (fun i => pos_a i - pos_b i)
    let combined_radius :=
      reservation.protection_radius_km + other.protection_radius_km
    if distance < combined_radius then
      some
        { conflicting_norad_id := other.center_tle.norad_id
          conflict_type := .operationalInterference
          severity :=
            if reservation.priority_level = .critical ∨
                other.priority_level = .critical then
              .high
            else
              .medium
          time_of_closest_approach := mid_time
          minimum_distance_km := distance
          collision_probability := 0
          analytical_probability := 0
          ml_probability := 0 }
    else
      none

/-- `ReservationCheckResponse` (reservation.rs:225-234); the
recommendations are strings no claim observes. -/
structure ReservationCheckResponse where
  reservation_id : ℕ
  conflicts_found : ℕ
  highest_severity : ConflictSeverity
  total_risk_score : ℝ
  conflicts : List ReservationConflict

/-- `OrbitReservationManager::evaluate_conflicts_internal`
(reservation.rs:413-466): walk the catalog, collecting satellite conflicts
while folding the running `highest_severity` (strict `>` comparison) and the
risk total; afterwards append reservation-overlap conflicts — without
revisiting `highest_severity` or `total_risk_score`. -/
noncomputable def evaluate_conflicts_internal
    (checkSat : SatelliteData → Option ReservationConflict)
    (pos : EciPropagator) (reservation : OrbitReservation)
    (catalog_satellites : List SatelliteData)
    (otherReservations : List OrbitReservation) : ReservationCheckResponse :=
  let satConflicts := catalog_satellites.filterMap checkSat
  let highest := satConflicts.foldl
    (fun h c => if h.rank < c.severity.rank then c.severity else h)
    ConflictSeverity.low
  let totalRisk := satConflicts.foldl (fun t c => t + c.collision_probability) 0
  let overlapConflicts :=
    (otherReservations.filter (fun o => o.id ≠ reservation.id)).filterMap
      (check_reservation_overlap pos reservation)
  let conflicts := satConflicts ++ overlapConflicts
  { reservation_id := reservation.id
    conflicts_found := conflicts.length
    highest_severity := highest
    total_risk_score := totalRisk
    conflicts := conflicts }

/-! ### Launch feasibility (reservation.rs:468-594) -/

/-- `LaunchFeasibilityRequest` (reservation.rs:186-203). -/
structure LaunchFeasibilityRequest where
  customer : String
  mission_name : String
  launch : NewLaunchRequest
  window_hours : Option ℕ
  protection_radius_km : Option ℝ
  max_conjunction_probability : Option ℝ
  priority_level : Option PriorityLevel
  rideshare : Option Bool
  constraints : Option ReservationConstraints

/-- `LaunchFeasibilitySummary` (reservation.rs:205-212). -/
structure LaunchFeasibilitySummary where
  conflicts_found : ℕ
  highest_severity : ConflictSeverity
  total_risk_score : ℝ
  minimum_distance_km : Option ℝ
  max_collision_probability : Option ℝ

/-- `LaunchFeasibilityResult` (reservation.rs:214-223). -/
structure LaunchFeasibilityResult where
  safe_to_launch : Bool
  customer : String
  mission_name : String
  reservation_preview : OrbitReservation
  launch_profile : LaunchProfile
  assessment : ReservationCheckResponse
  summary : LaunchFeasibilitySummary

/-- `request.rideshare.unwrap_or(false)` (reservation.rs:480). -/
def feasibilityRideshare (request : LaunchFeasibilityRequest) : Bool :=
  request.rideshare.getD false

/-- `request.window_hours.unwrap_or(6).clamp(1, 72)` (reservation.rs:476). -/
def feasibilityWindowHours (request : LaunchFeasibilityRequest) : ℕ :=
  min (max (request.window_hours.getD 6) 1) 72

/-- `request.protection_radius_km.unwrap_or_else(|| if rideshare {5.0} else {25.0})`
(reservation.rs:481-484). -/
noncomputable def feasibilityProtectionRadius
    (request : LaunchFeasibilityRequest) : ℝ :=
  request.protection_radius_km.getD (if feasibilityRideshare request then 5 else 25)

/-- `request.max_conjunction_probability.unwrap_or_else(|| if rideshare {1e-4}
else {5e-5}).clamp(1e-8, 1.0)` (reservation.rs:486-489). -/
noncomputable def feasibilityProbabilityCap
    (request : LaunchFeasibilityRequest) : ℝ :=
  min (max (request.max_conjunction_probability.getD
    (if feasibilityRideshare request then 1e-4 else 5e-5)) 1e-8) 1

/-- `OrbitReservationManager::summarize_feasibility`
(reservation.rs:545-594).  The `f64::INFINITY`/`f64::MAX` based folds and
`is_finite` guards reduce, over `ℝ`, to: minimum of the conflict distances
(`none` when there are no conflicts) and maximum of the conflict
probabilities together with the initial accumulator `0.0`. -/
noncomputable def summarize_feasibility (reservation : OrbitReservation)
    (assessment : ReservationCheckResponse) :
    LaunchFeasibilitySummary × Bool :=
  let min_distance : Option ℝ :=
    match assessment.conflicts.map (·.minimum_distance_km) with
    | [] => none
    | d :: ds => some (ds.foldl min d)
  let max_probability : Option ℝ :=
    match assessment.conflicts.map (·.collision_probability) with
    | [] => none
    | ps => some (ps.foldl max 0)
  let distance_ok :=
    min_distance.elim true (fun d => decide (reservation.protection_radius_km ≤ d))
  let probability_ok :=
    max_probability.elim true
      (fun p => decide (p ≤ reservation.constraints.max_conjunction_probability))
  let severity_ok :=
    decide (assessment.highest_severity.rank ≤ ConflictSeverity.low.rank)
  let summary : LaunchFeasibilitySummary :=
    { conflicts_found := assessment.conflicts_found
      highest_severity := assessment.highest_severity
      total_risk_score := assessment.total_risk_score
      minimum_distance_km := min_distance
      max_collision_probability := max_probability }
  (summary, distance_ok && probability_ok && severity_ok)

/-- The reservation preview `evaluate_launch_feasibility`
(reservation.rs:468-543) assembles from the resolved knobs. -/
noncomputable def feasibilityReservation (request : LaunchFeasibilityRequest)
    (center : SatelliteData) (profile : LaunchProfile)
    (reservationId : ℕ) (now : ℤ) : OrbitReservation :=
  let rideshare := feasibilityRideshare request
  let protection_radius := feasibilityProtectionRadius request
  let probability_cap := feasibilityProbabilityCap request
  let start_time := request.launch.epoch
  { id := reservationId
    owner := request.customer
    reservation_type := if rideshare then .operationalSlot else .launchCorridor
    start_time := start_time
    end_time := start_time + (feasibilityWindowHours request : ℤ) * 3600
    center_tle := center
    protection_radius_km := protection_radius
    priority_level :=
      request.priority_level.getD (if rideshare then .high else .medium)
    status := .pending
    created_at := now
    constraints :=
      request.constraints.getD
        { max_conjunction_probability := probability_cap
          minimum_separation_km := protection_radius
          notification_threshold_hours := 12
          allow_debris_tracking := true
          coordinate_system := .eci }
    launch_profile := some profile }

/-- `OrbitReservationManager::evaluate_launch_feasibility`
(reservation.rs:468-543): synthesize the launch satellite, build the
preview reservation, evaluate conflicts (`evalConflicts` stands for
`evaluate_conflicts_internal` applied to the live catalog and index) and
summarize.  Errors are wrapped in `SatApiError::TleParseError`. -/
noncomputable def evaluate_launch_feasibility
    (evalConflicts : OrbitReservation → ReservationCheckResponse)
    (request : LaunchFeasibilityRequest) (reservationId : ℕ) (now : ℤ) :
    Except SatApiError LaunchFeasibilityResult :=
  match build_launch_satellite request.launch now with
  | .error msg => .error (SatApiError.tleParseError msg)
  | .ok (center, profile) =>
    let reservation := feasibilityReservation request center profile reservationId now
    let assessment := evalConflicts reservation
    let summarized := summarize_feasibility reservation assessment
    .ok
      { safe_to_launch := summarized.2
        customer := request.customer
        mission_name := request.mission_name
        reservation_preview := reservation
        launch_profile := profile
        assessment := assessment
        summary := summarized.1 }

/-! ## Risk-prediction handler (src/backend/sat_api/src/handlers.rs, `predict_risk`) -/

/-- `RiskLevel` (tle.rs:14-20). -/
inductive RiskLevel where
  | green
  | amber
  | red
deriving DecidableEq

/-- `AlertSeverity` (alerts.rs:6-12). -/
inductive AlertSeverity where
  | info
  | warning
  | critical
deriving DecidableEq

/-- `AlertCategory` (alerts.rs:14-20). -/
inductive AlertCategory where
  | collisionRisk
  | reservationConflict
  | serviceHealth
deriving DecidableEq

/-- The fields of a `LiveAlert` (alerts.rs:22-32) that the claims observe. -/
structure PublishedAlert where
  tenant_id : String
  severity : AlertSeverity
  category : AlertCategory

/-- The fields of a `ConjunctionEvent` that the per-event loop of
`predict_risk` reads. -/
structure ConjunctionEventH where
  satellite_a : ℕ
  satellite_b : ℕ
  tca : ℤ
  dmin_km : ℝ
  relative_velocity_km_s : ℝ
  tle_age_a_hours : ℝ
  tle_age_b_hours : ℝ
  pc : ℝ

/-- The per-event record pushed onto `events`
(`RiskPredictionConjunction`, handlers.rs:62-73). -/
structure RiskPredictionConjunction where
  satellite_a : ℕ
  satellite_b : ℕ
  min_distance_km : ℝ
  relative_velocity_km_s : ℝ
  tle_age_hours : ℝ
  baseline_risk_score : ℝ
  logistic_probability : ℝ
  raw_probability : ℝ
  risk_level : RiskLevel
  time_of_closest_approach : ℤ

/-- The body of the per-event loop of `predict_risk` (handlers.rs:396-491):
build the feature vector, let the risk model predict, update it with the
label `pc ≥ threshold`, band the logistic probability (0.7/0.4), publish a
`Critical`/`CollisionRisk` alert when it reaches `0.6`, and push the event
record, whose `logistic_probability` is the model output and whose
`raw_probability` is the analytic `pc` — the two are never fused.
`baselineRisk` stands for the baseline-map average computed at lines 397-404;
returns the pushed record, the alert (if any) and the updated model. -/
noncomputable def predictRiskProcessEvent (m : RiskModel) (tenant : String)
    (threshold : ℝ) (event : ConjunctionEventH) (baselineRisk : ℝ) :
    RiskPredictionConjunction × Option PublishedAlert × RiskModel :=
  let tle_age := max event.tle_age_a_hours event.tle_age_b_hours
  let features : Fin 4 → ℝ :=
    ![max event.dmin_km 0.001, event.relative_velocity_km_s, tle_age, baselineRisk]
  let logistic_probability := m.predict features
  let label : ℝ := if threshold ≤ event.pc then 1 else 0
  let updated := m.update features label
  let risk_level : RiskLevel :=
    if (0.7 : ℝ) ≤ logistic_probability then .red
    else if (0.4 : ℝ) ≤ logistic_probability then .amber
    else .green
  let alert : Option PublishedAlert :=
    if (0.6 : ℝ) ≤ logistic_probability then
      some { tenant_id := tenant, severity := .critical, category := .collisionRisk }
    else
      none
  ({ satellite_a := event.satellite_a
     satellite_b := event.satellite_b
     min_distance_km := event.dmin_km
     relative_velocity_km_s := event.relative_velocity_km_s
     tle_age_hours := tle_age
     baseline_risk_score := baselineRisk
     logistic_probability := logistic_probability
     raw_probability := event.pc
     risk_level := risk_level
     time_of_closest_approach := event.tca },
   alert, updated)

/-! ## Auxiliary definitions and concrete inputs used by the theorems -/

/-- The strict key order characterizing a sorted-and-deduplicated catalog
listing. -/
def byNoradLt (a b : SatelliteData) : Prop := a.norad_id < b.norad_id

/-- The key list of a catalog table. -/
def catalogKeys (m : Catalog) : List ℕ := m.map (·.1)

/-- A concrete covariance projection (the exact in-plane projection an
isotropic combined covariance of total variance 1 yields for a relative
velocity along the third axis). -/
noncomputable def unitCovariance : CovarianceAnalysis :=
  { collision_plane_projection := fun i j => if i = j then 1 else 0 }

/-- A catalog object present before a failing load. -/
def preloadedSat : SatelliteData :=
  { norad_id := 100, name := "ISS (ZARYA)", tle_line1 := "1 00100", tle_line2 := "2 00100", last_updated := 0 }

/-- An element set whose SGP4 initialization fails. -/
def rejectedSat : SatelliteData :=
  { norad_id := 200, name := "BAD TLE", tle_line1 := "garbage", tle_line2 := "garbage", last_updated := 0 }

/-- First of two element sets sharing catalog id 100. -/
def dupFirstSat : SatelliteData :=
  { norad_id := 100, name := "COPY A", tle_line1 := "1 00100", tle_line2 := "2 00100", last_updated := 0 }

/-- Second of two element sets sharing catalog id 100. -/
def dupSecondSat : SatelliteData :=
  { norad_id := 100, name := "COPY B", tle_line1 := "1 00100", tle_line2 := "2 00100", last_updated := 5 }

/-- A conjunction event with `pc = 1` and the *later* TCA, placed first. -/
def tieEventLateTca : ConjunctionEventO :=
  { satellite_a := 1, satellite_b := 2, tca := 10, pc := 1 }

/-- A conjunction event with `pc = 1` and the *earlier* TCA, placed second. -/
def tieEventEarlyTca : ConjunctionEventO :=
  { satellite_a := 3, satellite_b := 4, tca := 5, pc := 1 }

/-- A reservation request that violates both claimed invariants
(`end_time = start_time` and `protection_radius_km = 0`) while supplying an
explicit center TLE. -/
noncomputable def invalidReservationRequest : CreateReservationRequest :=
  { owner := "acme"
    reservation_type := .operationalSlot
    start_time := 0
    end_time := 0
    center_tle := some preloadedSat
    new_launch := none
    protection_radius_km := 0
    priority_level := .medium
    constraints := none }

/-- A `NewLaunch` spec whose apogee lies below its perigee. -/
noncomputable def badLaunchSpec : NewLaunchRequest :=
  { vehicle_name := "NX-1"
    epoch := 0
    perigee_alt_km := 500
    apogee_alt_km := 400
    inclination_deg := 53
    raan_deg := 0
    arg_perigee_deg := 0
    mean_anomaly_deg := 0
    proposed_norad_id := some 900001 }

/-- A reservation request built from `badLaunchSpec` (no center TLE). -/
noncomputable def badLaunchReservationRequest : CreateReservationRequest :=
  { owner := "acme"
    reservation_type := .launchCorridor
    start_time := 0
    end_time := 3600
    center_tle := none
    new_launch := some badLaunchSpec
    protection_radius_km := 25
    priority_level := .medium
    constraints := none }

/-- A conflict-free check response. -/
noncomputable def emptyAssessment : ReservationCheckResponse :=
  { reservation_id := 7
    conflicts_found := 0
    highest_severity := .low
    total_risk_score := 0
    conflicts := [] }

/-- The reservation the engine stores for `invalidReservationRequest`. -/
noncomputable def sampleReservation : OrbitReservation :=
  reservationOfRequest invalidReservationRequest preloadedSat none 7 0

/-- A propagator placing every object at the origin (a degenerate but legal
instantiation of the toy `propagate_to_eci`). -/
noncomputable def zeroPropagator : EciPropagator := fun _ _ => fun _ => 0

/-- A one-hour reservation with a 5 km protection radius (owner alpha). -/
noncomputable def overlapResA : OrbitReservation :=
  { id := 1
    owner := "alpha"
    reservation_type := .operationalSlot
    start_time := 0
    end_time := 3600
    center_tle := preloadedSat
    protection_radius_km := 5
    priority_level := .medium
    status := .active
    created_at := 0
    constraints := defaultConstraints .medium 5
    launch_profile := none }

/-- A second, fully overlapping reservation (owner beta). -/
noncomputable def overlapResB : OrbitReservation :=
  { id := 2
    owner := "beta"
    reservation_type := .operationalSlot
    start_time := 0
    end_time := 3600
    center_tle := rejectedSat
    protection_radius_km := 5
    priority_level := .medium
    status := .active
    created_at := 0
    constraints := defaultConstraints .medium 5
    launch_profile := none }

/-- The overlap conflict `check_reservation_overlap` emits for
`overlapResA` vs `overlapResB` under `zeroPropagator`. -/
noncomputable def overlapConflictSample : ReservationConflict :=
  { conflicting_norad_id := 200
    conflict_type := .operationalInterference
    severity := .medium
    time_of_closest_approach := 1800
    minimum_distance_km := 0
    collision_probability := 0
    analytical_probability := 0
    ml_probability := 0 }

/-- A conjunction event whose analytic `pc` is 1 and whose feature vector
normalizes to `coldStartFeatures` (with baseline risk `0.9`). -/
noncomputable def highPcEvent : ConjunctionEventH :=
  { satellite_a := 1
    satellite_b := 2
    tca := 0
    dmin_km := 0.01
    relative_velocity_km_s := 14
    tle_age_a_hours := 72
    tle_age_b_hours := 10
    pc := 1 }

/-! # Theorems

First the generic list/option helpers, then the per-claim theorems. -/

/-! ## List helpers -/

theorem find?_eq_head?_filter {α : Type} (p : α → Bool) :
    ∀ l : List α, l.find? p = (l.filter p).head?
  | [] => rfl
  | a :: l => by
    cases h : p a with
    | true =>
        rw [List.find?_cons_of_pos _ h, List.filter_cons_of_pos h, List.head?_cons]
    | false =>
        rw [List.find?_cons_of_neg _ (by simp [h]), List.filter_cons_of_neg (by simp [h]),
          find?_eq_head?_filter p l]

theorem filter_orderedInsert_pos {α : Type} (r : α → α → Prop) [DecidableRel r]
    (p : α → Bool) (a : α) (hpa : p a = true)
    (hneg : ∀ b, ¬ r a b → p b = false) (l : List α) :
    (l.orderedInsert r a).filter p = a :: l.filter p := by
  rw [List.orderedInsert_eq_take_drop, List.filter_append]
  have htake : (l.takeWhile fun b => ¬ r a b).filter p = [] := by
    refine List.filter_eq_nil_iff.mpr ?_
    intro x hx
    have hx0 : ¬ r a x := by
      simpa using List.mem_takeWhile_imp hx
    simp [hneg x hx0]
  rw [htake, List.nil_append, List.filter_cons_of_pos hpa]
  have hsplit :
      l.filter p = ((l.takeWhile fun b => ¬ r a b) ++
        l.dropWhile fun b => ¬ r a b).filter p := by
    rw [List.takeWhile_append_dropWhile]
  rw [hsplit, List.filter_append, htake, List.nil_append]

theorem filter_orderedInsert_neg {α : Type} (r : α → α → Prop) [DecidableRel r]
    (p : α → Bool) (a : α) (hpa : p a = false) (l : List α) :
    (l.orderedInsert r a).filter p = l.filter p := by
  rw [List.orderedInsert_eq_take_drop, List.filter_append,
    List.filter_cons_of_neg (by simp [hpa])]
  have hsplit :
      l.filter p = ((l.takeWhile fun b => ¬ r a b) ++
        l.dropWhile fun b => ¬ r a b).filter p := by
    rw [List.takeWhile_append_dropWhile]
  rw [hsplit, List.filter_append]

/-- Stability of `insertionSort`, in filter form: a predicate `p` that only
relates elements tied by `r` (whenever `p a` holds and `b` precedes `a`
strictly, `p b` fails) filters to the same sublist before and after the
sort. -/
theorem filter_insertionSort {α : Type} (r : α → α → Prop) [DecidableRel r]
    (p : α → Bool) (h : ∀ a b, p a = true → ¬ r a b → p b = false) :
    ∀ l : List α, (List.insertionSort r l).filter p = l.filter p
  | [] => rfl
  | a :: l => by
    rw [List.insertionSort]
    cases hpa : p a with
    | true =>
        rw [filter_orderedInsert_pos r p a hpa (h a · hpa),
          filter_insertionSort r p h l, List.filter_cons_of_pos hpa]
    | false =>
        rw [filter_orderedInsert_neg r p a hpa,
          filter_insertionSort r p h l, List.filter_cons_of_neg (by simp [hpa])]

/-! ## C9 — alert tenant isolation -/

/-- The delivery filter of `stream_alerts` forwards an alert iff its
tenant equals the subscriber's tenant: the `default`-tenant disjunct is
subsumed by the equality. -/
theorem shouldDeliverAlert_iff (subscriber alertTenant : String) :
    shouldDeliverAlert subscriber alertTenant = true ↔ alertTenant = subscriber := by
  unfold shouldDeliverAlert
  constructor
  · intro h
    rcases Bool.or_eq_true_iff.mp h with h1 | h2
    · exact eq_of_beq h1
    · have hs : subscriber = defaultTenant :=
        eq_of_beq (Bool.and_eq_true_iff.mp h2).1
      have ha : alertTenant = defaultTenant :=
        eq_of_beq (Bool.and_eq_true_iff.mp h2).2
      rw [hs, ha]
  · intro h
    subst h
    simp

/-- C9: a subscriber of the alert stream bound to tenant `T` never receives
an alert whose `tenant_id` differs from `T` — the `stream_alerts` filter
delivers an alert exactly when `alert.tenant_id = T` (the default-tenant
clause adds nothing beyond that equality, so `default` subscribers receive
exactly the `default` alerts). -/
theorem C9_alert_tenant_isolation (subscriber : String) (alert : PublishedAlert) :
    shouldDeliverAlert subscriber alert.tenant_id = true ↔
      alert.tenant_id = subscriber :=
  shouldDeliverAlert_iff subscriber alert.tenant_id

/-! ## C2 — collision probability vs `dmin` -/

/-- C2 (amended): `calculate_collision_probability` does not depend on
`dmin_km` at all — the Mahalanobis quantity computed from it is discarded —
so with the covariance projection and relative speed held fixed, reducing
`dmin` leaves `pc` exactly unchanged (monotone only in the weak sense, never
strictly increasing). -/
theorem C2_pc_independent_of_dmin (dmin₁ dmin₂ : ℝ)
    (covariance : CovarianceAnalysis) (relative_speed : ℝ) :
    calculate_collision_probability dmin₁ covariance relative_speed =
      calculate_collision_probability dmin₂ covariance relative_speed := rfl

/-- C2 counterexample: at the unit covariance projection and a 10 km/s
relative speed, reducing `dmin` from 2 km to 1 km does *not* increase the
returned `pc` — it is exactly the same number, refuting the claimed strict
monotone increase. -/
theorem C2_counterexample :
    ¬ (calculate_collision_probability 2 unitCovariance 10 <
        calculate_collision_probability 1 unitCovariance 10) := by
  have h : calculate_collision_probability 2 unitCovariance 10 =
      calculate_collision_probability 1 unitCovariance 10 := rfl
  rw [h]
  exact lt_irrefl _

/-! ## C6 — conjunction output ordering -/

/-- C6 (amended): the report's `conjunctions` list is the threshold-filtered
event list sorted by `pc` descending; because the sort is stable and uses no
tie-break, events with equal `pc` keep their pre-sort (pair-enumeration)
order — they are *not* reordered by TCA. -/
theorem C6_output_ordering (threshold : ℚ) (events : List ConjunctionEventO) :
    List.Sorted byPcDesc (conjunctionsOrdered threshold events) ∧
    (conjunctionsOrdered threshold events).Perm
      (events.filter (fun e => threshold ≤ e.pc)) ∧
    ∀ q : ℚ, (conjunctionsOrdered threshold events).filter (fun e => e.pc == q) =
      (events.filter (fun e => threshold ≤ e.pc)).filter (fun e => e.pc == q) := by
  refine ⟨List.sorted_insertionSort byPcDesc _, List.perm_insertionSort byPcDesc _, ?_⟩
  intro q
  refine filter_insertionSort byPcDesc (fun e => e.pc == q) ?_ _
  intro a b hpa hnab
  have haq : a.pc = q := by simpa using hpa
  have hlt : a.pc < b.pc := lt_of_not_le (fun hc => hnab hc)
  have : b.pc ≠ q := by
    rw [← haq]
    exact ne_of_gt hlt
  simpa using this

/-- C6 counterexample: two events with equal `pc = 1/2`, the first-enumerated
one having the *later* TCA.  The code's sort leaves them in enumeration
order, so the event with the later TCA precedes the one with the earlier
TCA — refuting the claimed earlier-TCA-first tie-break. -/
theorem C6_counterexample :
    tieEventLateTca.pc = tieEventEarlyTca.pc ∧
    tieEventEarlyTca.tca < tieEventLateTca.tca ∧
    conjunctionsOrdered 0 [tieEventLateTca, tieEventEarlyTca] =
      [tieEventLateTca, tieEventEarlyTca] := by
  decide

/-! ## Catalog lemmas (tracker.rs / tle.rs) -/

theorem dedupByKey_sublist : ∀ l : List SatelliteData,
    List.Sublist (dedupByKey l) l := by
  intro l
  induction l using dedupByKey.induct with
  | case1 => rw [dedupByKey]
  | case2 a rest ih =>
      rw [dedupByKey]
      exact (ih.trans (List.dropWhile_sublist _)).cons₂ a

theorem find?_dropWhileKey (key k : ℕ) (hne : key ≠ k) :
    ∀ rest : List SatelliteData,
      ((rest.dropWhile (fun b => b.norad_id == key)).find?
        (fun s => s.norad_id == k)) = rest.find? (fun s => s.norad_id == k)
  | [] => rfl
  | b :: rest => by
    by_cases hb : b.norad_id = key
    · rw [List.dropWhile_cons_of_pos (by simp [hb]),
        find?_dropWhileKey key k hne rest,
        List.find?_cons_of_neg _ (by simp [hb, hne])]
    · rw [List.dropWhile_cons_of_neg (by simp [hb])]

theorem dedupByKey_find? (k : ℕ) :
    ∀ l : List SatelliteData,
      (dedupByKey l).find? (fun s => s.norad_id == k) =
        l.find? (fun s => s.norad_id == k) := by
  intro l
  induction l using dedupByKey.induct with
  | case1 => rw [dedupByKey]
  | case2 a rest ih =>
      rw [dedupByKey]
      by_cases ha : a.norad_id = k
      · rw [List.find?_cons_of_pos _ (by simp [ha]),
          List.find?_cons_of_pos _ (by simp [ha])]
      · rw [List.find?_cons_of_neg _ (by simp [ha]),
          List.find?_cons_of_neg _ (by simp [ha]), ih,
          find?_dropWhileKey a.norad_id k ha rest]

theorem dedupByKey_sorted_lt :
    ∀ l : List SatelliteData, List.Sorted byNoradLe l →
      List.Sorted byNoradLt (dedupByKey l) := by
  intro l
  induction l using dedupByKey.induct with
  | case1 =>
      intro _
      rw [dedupByKey]
      exact List.sorted_nil
  | case2 a rest ih =>
      intro hs
      rw [dedupByKey]
      have hrest : List.Sorted byNoradLe rest := hs.of_cons
      have hdw : List.Sorted byNoradLe
          (rest.dropWhile (fun b => b.norad_id == a.norad_id)) :=
        hrest.sublist (List.dropWhile_sublist _)
      refine List.Pairwise.cons ?_ (ih hdw)
      intro b hb
      have hbdw : b ∈ rest.dropWhile (fun x => x.norad_id == a.norad_id) :=
        (dedupByKey_sublist _).subset hb
      obtain ⟨h0, t, hdweq⟩ :=
        List.exists_cons_of_ne_nil (List.ne_nil_of_mem hbdw)
      have hh0 : (fun x : SatelliteData => x.norad_id == a.norad_id) h0 = false := by
        have hmatch := List.head?_dropWhile_not
          (fun x : SatelliteData => x.norad_id == a.norad_id) rest
        rw [hdweq] at hmatch
        simpa using hmatch
      have hh0ne : h0.norad_id ≠ a.norad_id := by simpa using hh0
      have hh0mem : h0 ∈ rest :=
        (List.dropWhile_sublist _).subset (hdweq ▸ List.mem_cons_self h0 t)
      have hah0 : a.norad_id ≤ h0.norad_id :=
        List.rel_of_sorted_cons hs h0 hh0mem
      have halt : a.norad_id < h0.norad_id :=
        lt_of_le_of_ne hah0 (fun hc => hh0ne hc.symm)
      have hb0 : b = h0 ∨ b ∈ t := by
        have := hdweq ▸ hbdw
        simpa using this
      rcases hb0 with rfl | hbt
      · exact halt
      · have hsorted0 : List.Sorted byNoradLe (h0 :: t) := hdweq ▸ hdw
        have hle : byNoradLe h0 b := List.rel_of_sorted_cons hsorted0 b hbt
        exact lt_of_lt_of_le halt hle

theorem catLookup_map_replace_eq (k : ℕ) (v : SatelliteData) :
    ∀ m : Catalog,
      ((m.map (fun p => if p.1 == k then (k, v) else p)).find?
          (fun p => p.1 == k)) =
        (m.find? (fun p => p.1 == k)).map (fun _ => (k, v))
  | [] => rfl
  | p :: m => by
    by_cases hp : p.1 = k
    · rw [List.map_cons, if_pos (by simpa using hp),
        List.find?_cons_of_pos _ (by simp),
        List.find?_cons_of_pos _ (by simpa using hp)]
      rfl
    · rw [List.map_cons, if_neg (by simpa using hp),
        List.find?_cons_of_neg _ (by simpa using hp),
        List.find?_cons_of_neg _ (by simpa using hp),
        catLookup_map_replace_eq k v m]

theorem catLookup_map_replace_ne (k j : ℕ) (v : SatelliteData) (hjk : j ≠ k) :
    ∀ m : Catalog,
      ((m.map (fun p => if p.1 == k then (k, v) else p)).find?
          (fun p => p.1 == j)) = m.find? (fun p => p.1 == j)
  | [] => rfl
  | p :: m => by
    by_cases hp : p.1 = k
    · rw [List.map_cons, if_pos (by simpa using hp),
        List.find?_cons_of_neg _
          (by simp only [beq_iff_eq]; exact fun hc => hjk hc.symm),
        List.find?_cons_of_neg _
          (by simp only [beq_iff_eq, hp]; exact fun hc => hjk hc.symm),
        catLookup_map_replace_ne k j v hjk m]
    · rw [List.map_cons, if_neg (by simpa using hp)]
      by_cases hpj : p.1 = j
      · rw [List.find?_cons_of_pos _ (by simpa using hpj),
          List.find?_cons_of_pos _ (by simpa using hpj)]
      · rw [List.find?_cons_of_neg _ (by simpa using hpj),
          List.find?_cons_of_neg _ (by simpa using hpj),
          catLookup_map_replace_ne k j v hjk m]

theorem catLookup_catInsert (m : Catalog) (k j : ℕ) (v : SatelliteData) :
    catLookup (catInsert m k v) j = if j = k then some v else catLookup m j := by
  unfold catInsert catLookup
  by_cases hany : m.any (fun p => p.1 == k) = true
  · rw [if_pos hany]
    by_cases hjk : j = k
    · subst hjk
      rw [if_pos rfl, catLookup_map_replace_eq j v m]
      obtain ⟨x, hxm, hx⟩ := List.any_eq_true.mp hany
      cases hfind : m.find? (fun p => p.1 == j) with
      | none => exact absurd hx (List.find?_eq_none.mp hfind x hxm)
      | some w => rfl
    · rw [if_neg hjk, catLookup_map_replace_ne k j v hjk m]
  · rw [if_neg hany, List.find?_append]
    by_cases hjk : j = k
    · subst hjk
      have hnone : m.find? (fun p => p.1 == j) = none := by
        refine List.find?_eq_none.mpr ?_
        intro x hx
        intro hc
        exact hany (List.any_eq_true.mpr ⟨x, hx, hc⟩)
      rw [hnone, if_pos rfl]
      simp
    · have hsingle : ([(k, v)].find? (fun p => p.1 == j)) = none := by
        simp only [List.find?_singleton, beq_iff_eq]
        rw [if_neg (fun hc => hjk hc.symm)]
      rw [hsingle, Option.or_none, if_neg hjk]

theorem catalogKeys_catInsert_nodup (m : Catalog) (k : ℕ) (v : SatelliteData)
    (h : (catalogKeys m).Nodup) : (catalogKeys (catInsert m k v)).Nodup := by
  unfold catInsert
  by_cases hany : m.any (fun p => p.1 == k) = true
  · rw [if_pos hany]
    have hkeys : catalogKeys (m.map (fun p => if p.1 == k then (k, v) else p)) =
        catalogKeys m := by
      unfold catalogKeys
      rw [List.map_map]
      refine List.map_congr_left ?_
      intro p _
      by_cases hp : p.1 = k
      · simp [hp]
      · simp [hp]
    rw [hkeys]
    exact h
  · rw [if_neg hany]
    unfold catalogKeys
    rw [List.map_append]
    refine List.Nodup.append h (List.nodup_singleton k) ?_
    intro j hjm hjk
    have hk : j = k := by simpa using hjk
    subst hk
    obtain ⟨p, hpm, hpk⟩ := List.mem_map.mp hjm
    exact hany (List.any_eq_true.mpr ⟨p, hpm, by simp [hpk]⟩)

theorem foldl_catInsert_keys_nodup :
    ∀ (l : List SatelliteData) (m : Catalog), (catalogKeys m).Nodup →
      (catalogKeys (l.foldl (fun acc s => catInsert acc s.norad_id s) m)).Nodup
  | [], _, h => h
  | a :: l, m, h =>
      foldl_catInsert_keys_nodup l (catInsert m a.norad_id a)
        (catalogKeys_catInsert_nodup m a.norad_id a h)

theorem catLookup_foldl_catInsert (k : ℕ) :
    ∀ (l : List SatelliteData) (m : Catalog),
      catLookup (l.foldl (fun acc s => catInsert acc s.norad_id s) m) k =
        (l.reverse.find? (fun s => s.norad_id == k)).or (catLookup m k)
  | [], m => by simp
  | a :: l, m => by
    rw [List.foldl_cons, catLookup_foldl_catInsert k l (catInsert m a.norad_id a),
      catLookup_catInsert m a.norad_id k a, List.reverse_cons, List.find?_append,
      Option.or_assoc]
    congr 1
    by_cases hak : a.norad_id = k
    · rw [if_pos hak.symm, List.find?_cons_of_pos _ (by simpa using hak)]
      rfl
    · rw [if_neg (fun hc => hak hc.symm),
        List.find?_cons_of_neg _ (by simpa using hak)]
      rfl

/-! ## C1 — failed load and empty refresh -/

/-- C1 (amended): a load whose element sets all fail SGP4 initialization
returns `NoSatelliteData` — but because `load_satellites` clears the table
*before* validating, the previously loaded catalog is destroyed rather than
retained: the table is empty afterwards.  A background refresh that fetches
zero objects, by contrast, really does retain the existing catalog (it
`continue`s before touching the tracker). -/
theorem C1_failed_load_clears_catalog (initOk : SatelliteData → Bool)
    (input : List SatelliteData) (prev : Catalog)
    (hfail : ∀ s ∈ input, initOk s = false) :
    (loadSatellites initOk input prev).2 = some SatApiError.noSatelliteData ∧
    (loadSatellites initOk input prev).1 = [] ∧
    ∀ cat : Catalog, backgroundUpdateStep initOk [] cat = cat := by
  have hfilter : input.filter initOk = [] := by
    refine List.filter_eq_nil_iff.mpr ?_
    intro s hs
    simp [hfail s hs]
  refine ⟨?_, ?_, ?_⟩
  · unfold loadSatellites
    rw [hfilter]
    rfl
  · unfold loadSatellites
    rw [hfilter]
    rfl
  · intro cat
    have h0 : fetchCompose [] = [] := by
      unfold fetchCompose
      rw [show List.insertionSort byNoradLe ([] : List SatelliteData) = [] from rfl,
        dedupByKey]
    unfold backgroundUpdateStep
    rw [h0]
    rfl

/-- C1 witness: the amended statement at a concrete failing input. -/
theorem C1_witness :
    (loadSatellites (fun _ => false) [rejectedSat] [(100, preloadedSat)]).2 =
      some SatApiError.noSatelliteData ∧
    (loadSatellites (fun _ => false) [rejectedSat] [(100, preloadedSat)]).1 = [] ∧
    ∀ cat : Catalog, backgroundUpdateStep (fun _ => false) [] cat = cat :=
  C1_failed_load_clears_catalog (fun _ => false) [rejectedSat]
    [(100, preloadedSat)] (fun _ _ => rfl)

/-- C1 counterexample: catalog id 100 is queryable before the failed load
and gone afterwards — the claim that "every object that was queryable before
the failed load is still present afterwards" fails. -/
theorem C1_counterexample :
    (loadSatellites (fun _ => false) [rejectedSat] [(100, preloadedSat)]).2 =
      some SatApiError.noSatelliteData ∧
    catLookup [(100, preloadedSat)] 100 = some preloadedSat ∧
    catLookup (loadSatellites (fun _ => false) [rejectedSat]
      [(100, preloadedSat)]).1 100 = none := by
  decide

/-! ## C3 — dedup semantics -/

/-- C3 (amended): after `load(seq)` the catalog holds each `catalog_id` at
most once, and when several element sets share an id the *last*
successfully-initialized copy wins (`HashMap::insert` replaces); composing
multi-group fetch results sorts strictly by `catalog_id` (so each id occurs
at most once) and keeps the *first* occurrence of each id. -/
theorem C3_dedup_semantics (initOk : SatelliteData → Bool)
    (input : List SatelliteData) (prev : Catalog) (k : ℕ)
    (groups : List SatelliteData) :
    (catalogKeys (loadSatellites initOk input prev).1).Nodup ∧
    catLookup (loadSatellites initOk input prev).1 k =
      (input.filter initOk).reverse.find? (fun s => s.norad_id == k) ∧
    List.Sorted byNoradLt (fetchCompose groups) ∧
    (fetchCompose groups).find? (fun s => s.norad_id == k) =
      groups.find? (fun s => s.norad_id == k) := by
  refine ⟨?_, ?_, ?_, ?_⟩
  · exact foldl_catInsert_keys_nodup _ [] List.nodup_nil
  · unfold loadSatellites
    rw [catLookup_foldl_catInsert k (input.filter initOk) []]
    simp [catLookup]
  · exact dedupByKey_sorted_lt _ (List.sorted_insertionSort byNoradLe groups)
  · unfold fetchCompose
    rw [dedupByKey_find? k]
    rw [find?_eq_head?_filter, find?_eq_head?_filter]
    congr 1
    refine filter_insertionSort byNoradLe (fun s => s.norad_id == k) ?_ groups
    intro a b hpa hnab
    have hak : a.norad_id = k := by simpa using hpa
    have hlt : b.norad_id < a.norad_id := Nat.lt_of_not_le hnab
    have : b.norad_id ≠ k := by
      rw [← hak]
      exact Nat.ne_of_lt hlt
    simpa using this

/-- C3 counterexample: loading two successfully-initializing element sets
that share catalog id 100 retains the *second* copy, not the first. -/
theorem C3_counterexample :
    catLookup (loadSatellites (fun _ => true) [dupFirstSat, dupSecondSat] []).1 100 =
      some dupSecondSat ∧
    dupSecondSat ≠ dupFirstSat := by
  decide

/-! ## C4 — reservation validation -/

/-- C4 (amended): `create_reservation` validates only the launch synthesis —
a `new_launch` with `apogee_alt_km < perigee_alt_km` (and no explicit center
TLE) is rejected as invalid input with the index unchanged.  It performs *no*
validation of `end_time > start_time` or `protection_radius_km > 0`: any
request carrying an explicit center TLE is accepted verbatim and stored. -/
theorem C4_reservation_validation (request : CreateReservationRequest)
    (reservationId : ℕ) (now : ℤ) (store : ReservationStore) :
    (∀ launch : NewLaunchRequest, request.center_tle = none →
      request.new_launch = some launch →
      launch.apogee_alt_km < launch.perigee_alt_km →
      (create_reservation request reservationId now store).1 =
        .error (SatApiError.tleParseError
          "apogee_alt_km must be greater than or equal to perigee_alt_km") ∧
      (create_reservation request reservationId now store).2 = store) ∧
    (∀ tle : SatelliteData, request.center_tle = some tle →
      (create_reservation request reservationId now store).1 =
        .ok (reservationOfRequest request tle none reservationId now) ∧
      (create_reservation request reservationId now store).2 =
        store ++ [(reservationId,
          reservationOfRequest request tle none reservationId now)]) := by
  constructor
  · intro launch hcenter hlaunch happ
    have hb : build_launch_satellite launch now =
        .error "apogee_alt_km must be greater than or equal to perigee_alt_km" := by
      unfold build_launch_satellite
      split
      · rfl
      · rename_i hcontra
        exact absurd happ hcontra
    have hres : resolve_center_satellite request now =
        .error "apogee_alt_km must be greater than or equal to perigee_alt_km" := by
      unfold resolve_center_satellite
      simp only [hcenter, hlaunch, hb]
      rfl
    unfold create_reservation
    rw [hres]
    exact ⟨rfl, rfl⟩
  · intro tle hcenter
    have hres : resolve_center_satellite request now = .ok (tle, none) := by
      unfold resolve_center_satellite
      rw [hcenter]
    unfold create_reservation
    rw [hres]
    exact ⟨rfl, rfl⟩

/-- C4 witness: the amended statement applied to the concrete
apogee-below-perigee launch request. -/
theorem C4_witness :
    (create_reservation badLaunchReservationRequest 7 0 []).1 =
      .error (SatApiError.tleParseError
        "apogee_alt_km must be greater than or equal to perigee_alt_km") ∧
    (create_reservation badLaunchReservationRequest 7 0 []).2 = [] :=
  (C4_reservation_validation badLaunchReservationRequest 7 0 []).1
    badLaunchSpec rfl rfl (by norm_num [badLaunchSpec])

/-- C4 counterexample: a request with `end_time = start_time` and
`protection_radius_km = 0` is *accepted* and stored, refuting the claim that
such requests are rejected with nothing stored. -/
theorem C4_counterexample :
    (create_reservation invalidReservationRequest 7 0 []).1 =
      .ok sampleReservation ∧
    (create_reservation invalidReservationRequest 7 0 []).2 =
      [(7, sampleReservation)] ∧
    sampleReservation.end_time ≤ sampleReservation.start_time ∧
    sampleReservation.protection_radius_km ≤ 0 := by
  refine ⟨rfl, rfl, le_refl _, le_refl _⟩

/-! ## Fold helpers for the feasibility summary -/

theorem le_foldl_min_iff (r : ℝ) :
    ∀ (ds : List ℝ) (d : ℝ), r ≤ ds.foldl min d ↔ r ≤ d ∧ ∀ x ∈ ds, r ≤ x
  | [], d => by simp
  | x :: ds, d => by
    rw [List.foldl_cons, le_foldl_min_iff r ds (min d x)]
    simp only [le_min_iff, List.mem_cons]
    constructor
    · rintro ⟨⟨hd, hx⟩, hds⟩
      exact ⟨hd, fun y hy => hy.elim (fun h => h ▸ hx) (hds y)⟩
    · rintro ⟨hd, hall⟩
      exact ⟨⟨hd, hall x (Or.inl rfl)⟩, fun y hy => hall y (Or.inr hy)⟩

theorem foldl_max_le_iff (cap : ℝ) :
    ∀ (ps : List ℝ) (a : ℝ), ps.foldl max a ≤ cap ↔ a ≤ cap ∧ ∀ x ∈ ps, x ≤ cap
  | [], a => by simp
  | x :: ps, a => by
    rw [List.foldl_cons, foldl_max_le_iff cap ps (max a x)]
    simp only [max_le_iff, List.mem_cons]
    constructor
    · rintro ⟨⟨ha, hx⟩, hps⟩
      exact ⟨ha, fun y hy => hy.elim (fun h => h ▸ hx) (hps y)⟩
    · rintro ⟨ha, hall⟩
      exact ⟨⟨ha, hall x (Or.inl rfl)⟩, fun y hy => hall y (Or.inr hy)⟩

theorem severity_rank_le_low_iff (s : ConflictSeverity) :
    s.rank ≤ ConflictSeverity.low.rank ↔ s = ConflictSeverity.low := by
  cases s <;> simp [ConflictSeverity.rank]

/-! ## C5 — launch feasibility -/

/-- C5: `safe_to_launch` is true exactly when every reported conflict keeps
at least the protection radius away, every conflict's collision probability
stays within `constraints.max_conjunction_probability`, and the response's
`highest_severity` is `Low` — all three vacuously true with no conflicts;
and the request knobs default to `window_hours = 6` clamped to `[1, 72]`,
protection radius `25 km` (`5 km` rideshare) and probability cap `5e-5`
(`1e-4` rideshare), with `evaluate_launch_feasibility` wiring exactly these
resolved values and the summary verdict into its result. -/
theorem C5_launch_feasibility :
    (∀ (reservation : OrbitReservation) (assessment : ReservationCheckResponse),
      0 ≤ reservation.constraints.max_conjunction_probability →
      ((summarize_feasibility reservation assessment).2 = true ↔
        (∀ c ∈ assessment.conflicts,
          reservation.protection_radius_km ≤ c.minimum_distance_km) ∧
        (∀ c ∈ assessment.conflicts,
          c.collision_probability ≤
            reservation.constraints.max_conjunction_probability) ∧
        assessment.highest_severity = ConflictSeverity.low)) ∧
    (∀ req : LaunchFeasibilityRequest,
      (req.window_hours = none → feasibilityWindowHours req = 6) ∧
      1 ≤ feasibilityWindowHours req ∧ feasibilityWindowHours req ≤ 72 ∧
      (req.protection_radius_km = none → feasibilityRideshare req = false →
        feasibilityProtectionRadius req = 25) ∧
      (req.protection_radius_km = none → feasibilityRideshare req = true →
        feasibilityProtectionRadius req = 5) ∧
      (req.max_conjunction_probability = none → feasibilityRideshare req = false →
        feasibilityProbabilityCap req = 5e-5) ∧
      (req.max_conjunction_probability = none → feasibilityRideshare req = true →
        feasibilityProbabilityCap req = 1e-4)) ∧
    (∀ (evalConflicts : OrbitReservation → ReservationCheckResponse)
        (req : LaunchFeasibilityRequest) (reservationId : ℕ) (now : ℤ)
        (result : LaunchFeasibilityResult),
      evaluate_launch_feasibility evalConflicts req reservationId now = .ok result →
      result.safe_to_launch =
        (summarize_feasibility result.reservation_preview result.assessment).2 ∧
      result.assessment = evalConflicts result.reservation_preview ∧
      result.reservation_preview.protection_radius_km =
        feasibilityProtectionRadius req ∧
      result.reservation_preview.end_time =
        req.launch.epoch + (feasibilityWindowHours req : ℤ) * 3600 ∧
      (req.constraints = none →
        result.reservation_preview.constraints.max_conjunction_probability =
          feasibilityProbabilityCap req)) := by
  refine ⟨?_, ?_, ?_⟩
  · intro reservation assessment hcap
    unfold summarize_feasibility
    cases hc : assessment.conflicts with
    | nil =>
        simp [hc, severity_rank_le_low_iff]
    | cons c cs =>
        simp only [hc, List.map_cons, Option.elim, Bool.and_eq_true,
          decide_eq_true_eq]
        rw [le_foldl_min_iff, foldl_max_le_iff]
        have hA : (reservation.protection_radius_km ≤ c.minimum_distance_km ∧
            ∀ y ∈ cs.map (·.minimum_distance_km),
              reservation.protection_radius_km ≤ y) ↔
            ∀ x ∈ c :: cs,
              reservation.protection_radius_km ≤ x.minimum_distance_km := by
          constructor
          · rintro ⟨hd, hds⟩ x hx
            rcases List.mem_cons.mp hx with hxc | hxs
            · rw [hxc]; exact hd
            · exact hds _ (List.mem_map_of_mem _ hxs)
          · intro hall
            refine ⟨hall c (List.mem_cons_self c cs), ?_⟩
            intro y hy
            obtain ⟨z, hz, rfl⟩ := List.mem_map.mp hy
            exact hall z (List.mem_cons.mpr (Or.inr hz))
        have hB : ((0 : ℝ) ≤ reservation.constraints.max_conjunction_probability ∧
            ∀ y ∈ c.collision_probability :: cs.map (·.collision_probability),
              y ≤ reservation.constraints.max_conjunction_probability) ↔
            ∀ x ∈ c :: cs, x.collision_probability ≤
              reservation.constraints.max_conjunction_probability := by
          constructor
          · rintro ⟨_, hps⟩ x hx
            rcases List.mem_cons.mp hx with hxc | hxs
            · rw [hxc]
              exact hps _ (List.mem_cons_self _ _)
            · exact hps _
                (List.mem_cons.mpr (Or.inr (List.mem_map_of_mem _ hxs)))
          · intro hall
            refine ⟨hcap, ?_⟩
            intro y hy
            rcases List.mem_cons.mp hy with hyc | hys
            · rw [hyc]
              exact hall c (List.mem_cons_self c cs)
            · obtain ⟨z, hz, rfl⟩ := List.mem_map.mp hys
              exact hall z (List.mem_cons.mpr (Or.inr hz))
        constructor
        · rintro ⟨⟨ha, hb⟩, hs⟩
          exact ⟨hA.mp ha, hB.mp hb, (severity_rank_le_low_iff _).mp hs⟩
        · rintro ⟨ha, hb, hs⟩
          exact ⟨⟨hA.mpr ha, hB.mpr hb⟩, (severity_rank_le_low_iff _).mpr hs⟩
  · intro req
    refine ⟨?_, ?_, ?_, ?_, ?_, ?_, ?_⟩
    · intro h
      unfold feasibilityWindowHours
      rw [h]
      rfl
    · unfold feasibilityWindowHours
      omega
    · unfold feasibilityWindowHours
      omega
    · intro hr hs
      unfold feasibilityProtectionRadius
      rw [hr, hs]
      rfl
    · intro hr hs
      unfold feasibilityProtectionRadius
      rw [hr, hs]
      rfl
    · intro hp hs
      unfold feasibilityProbabilityCap
      rw [hp, hs]
      show min (max (5e-5 : ℝ) 1e-8) 1 = 5e-5
      rw [max_eq_left (by norm_num), min_eq_left (by norm_num)]
    · intro hp hs
      unfold feasibilityProbabilityCap
      rw [hp, hs]
      show min (max (1e-4 : ℝ) 1e-8) 1 = 1e-4
      rw [max_eq_left (by norm_num), min_eq_left (by norm_num)]
  · intro evalConflicts req reservationId now result h
    unfold evaluate_launch_feasibility at h
    cases hbuild : build_launch_satellite req.launch now with
    | error msg => rw [hbuild] at h; exact absurd h (by simp)
    | ok pair =>
        rw [hbuild] at h
        injection h with h
        subst h
        refine ⟨rfl, rfl, rfl, rfl, ?_⟩
        intro hc
        show (req.constraints.getD _).max_conjunction_probability = _
        rw [hc]
        rfl

/-- C5 witness: the safety characterization applied to a concrete
reservation with no conflicts — `safe_to_launch` is true. -/
theorem C5_witness :
    (summarize_feasibility sampleReservation emptyAssessment).2 = true :=
  ((C5_launch_feasibility.1 sampleReservation emptyAssessment
      (by show (0 : ℝ) ≤ 1e-4; norm_num)).mpr
    ⟨fun c hc => absurd hc (List.not_mem_nil c),
     fun c hc => absurd hc (List.not_mem_nil c), rfl⟩)

/-! ## Risk-model lemmas (ml.rs) -/

theorem predict_pos (m : RiskModel) (x : Fin 4 → ℝ) : 0 < m.predict x := by
  unfold RiskModel.predict
  have h := Real.exp_pos (-(m.z x))
  positivity

theorem predict_lt_one (m : RiskModel) (x : Fin 4 → ℝ) : m.predict x < 1 := by
  unfold RiskModel.predict
  have h := Real.exp_pos (-(m.z x))
  rw [div_lt_one (by positivity)]
  linarith

theorem clampR_of_mem (x lo hi : ℝ) (h1 : lo ≤ x) (h2 : x ≤ hi) :
    clampR x lo hi = x := by
  unfold clampR
  rw [max_eq_left h1, min_eq_left h2]

/-- The linear score after one `update(x, 0.0)` step: the SGD update moves
`z` to `(1 - ηλ)·z - η·σ(z)·(1 + ‖x‖²)`. -/
theorem z_update_label_zero (m : RiskModel) (x : Fin 4 → ℝ) :
    (m.update x 0).z x =
      (1 - m.learning_rate * m.l2_penalty) * m.z x -
        m.learning_rate * m.predict x * (1 + ∑ i, x i ^ 2) := by
  have hp0 := predict_pos m x
  have hp1 := predict_lt_one m x
  have herr : clampR (m.predict x - 0) (-50) 50 = m.predict x := by
    rw [sub_zero]
    exact clampR_of_mem _ _ _ (by linarith) (by linarith)
  show (m.params.bias - m.learning_rate *
      (clampR (m.predict x - 0) (-50) 50 + m.l2_penalty * m.params.bias)) +
      ∑ i, (m.params.coefficients i - m.learning_rate *
        (clampR (m.predict x - 0) (-50) 50 * x i +
          m.l2_penalty * m.params.coefficients i)) * x i = _
  rw [herr]
  have hsum : ∑ i, (m.params.coefficients i - m.learning_rate *
      (m.predict x * x i + m.l2_penalty * m.params.coefficients i)) * x i =
      (∑ i, m.params.coefficients i * x i) -
        m.learning_rate * m.predict x * (∑ i, x i ^ 2) -
        m.learning_rate * m.l2_penalty *
          (∑ i, m.params.coefficients i * x i) := by
    calc ∑ i, (m.params.coefficients i - m.learning_rate *
            (m.predict x * x i + m.l2_penalty * m.params.coefficients i)) * x i
        = ∑ i, (m.params.coefficients i * x i -
            m.learning_rate * m.predict x * (x i ^ 2) -
            m.learning_rate * m.l2_penalty *
              (m.params.coefficients i * x i)) :=
          Finset.sum_congr rfl (fun i _ => by ring)
      _ = _ := by
          rw [Finset.sum_sub_distrib, Finset.sum_sub_distrib,
            ← Finset.mul_sum, ← Finset.mul_sum]
  rw [hsum]
  unfold RiskModel.z
  ring

/-- One `update(x, 0.0)` step from a non-positive linear score keeps the
score strictly negative (the prediction is positive, so the gradient pushes
down; the L2 shrink factor stays positive). -/
theorem z_update_neg (m : RiskModel) (x : Fin 4 → ℝ)
    (hlr : 0 < m.learning_rate) (hshrink : m.learning_rate * m.l2_penalty < 1)
    (hz : m.z x ≤ 0) : (m.update x 0).z x < 0 := by
  rw [z_update_label_zero]
  have hp := predict_pos m x
  have hS : 0 < 1 + ∑ i, x i ^ 2 := by positivity
  have hfac : (0 : ℝ) ≤ 1 - m.learning_rate * m.l2_penalty := by linarith
  have h1 : (1 - m.learning_rate * m.l2_penalty) * m.z x ≤ 0 :=
    mul_nonpos_iff.mpr (Or.inl ⟨hfac, hz⟩)
  have h2 : 0 < m.learning_rate * m.predict x * (1 + ∑ i, x i ^ 2) :=
    mul_pos (mul_pos hlr hp) hS
  linarith

theorem coldStart_learning_rate :
    ∀ n : ℕ, (coldStartModelAfter n).learning_rate = 5e-3
  | 0 => rfl
  | n + 1 => coldStart_learning_rate n

theorem coldStart_l2_penalty :
    ∀ n : ℕ, (coldStartModelAfter n).l2_penalty = 5e-4
  | 0 => rfl
  | n + 1 => coldStart_l2_penalty n

/-- The cold-start linear score of the scenario's feature vector:
`-3.125 + (-2.75·0.01 + 0.42·14 + 0.18·72 + 2.10·0.9) = 17.5775`. -/
theorem coldStart_z_value : defaultRiskModel.z coldStartFeatures = 17.5775 := by
  unfold RiskModel.z defaultRiskModel coldStartFeatures
  rw [Fin.sum_univ_four]
  norm_num [Matrix.cons_val_zero, Matrix.cons_val_one, Matrix.head_cons,
    Matrix.cons_val_two, Matrix.cons_val_three, Matrix.tail_cons]

theorem coldStart_sumsq :
    ∑ i, coldStartFeatures i ^ 2 = 5380.8101 := by
  unfold coldStartFeatures
  rw [Fin.sum_univ_four]
  norm_num [Matrix.cons_val_zero, Matrix.cons_val_one, Matrix.head_cons,
    Matrix.cons_val_two, Matrix.cons_val_three, Matrix.tail_cons]

theorem exp_neg_large_le : Real.exp (-17.5775) ≤ 1 / 16 := by
  have h2 : (2 : ℝ) ≤ Real.exp 1 := by
    have := Real.add_one_le_exp 1
    linarith
  have hmono : Real.exp (-17.5775) ≤ Real.exp (-4) :=
    Real.exp_le_exp.mpr (by norm_num)
  have hpow : (16 : ℝ) ≤ Real.exp 4 := by
    have hns : Real.exp ((4 : ℕ) * (1 : ℝ)) = Real.exp 1 ^ (4 : ℕ) :=
      Real.exp_nat_mul 1 4
    have h16 : (16 : ℝ) ≤ Real.exp 1 ^ (4 : ℕ) := by
      calc (16 : ℝ) = 2 ^ (4 : ℕ) := by norm_num
        _ ≤ Real.exp 1 ^ (4 : ℕ) := by
            exact pow_le_pow_left (by norm_num) h2 4
    calc (16 : ℝ) ≤ Real.exp 1 ^ (4 : ℕ) := h16
      _ = Real.exp ((4 : ℕ) * (1 : ℝ)) := hns.symm
      _ = Real.exp 4 := by norm_num
  have h4 : Real.exp (-4) ≤ 1 / 16 := by
    rw [Real.exp_neg]
    rw [show (1 : ℝ) / 16 = (16 : ℝ)⁻¹ by norm_num]
    exact inv_le_inv_of_le (by norm_num) hpow
  linarith

/-- The cold-start prediction on the scenario vector exceeds 0.9. -/
theorem coldStart_predict_gt :
    (0.9 : ℝ) < defaultRiskModel.predict coldStartFeatures := by
  unfold RiskModel.predict
  rw [coldStart_z_value]
  have hpos := Real.exp_pos (-(17.5775 : ℝ))
  have hle : Real.exp (-(17.5775 : ℝ)) ≤ 1 / 16 := by
    have := exp_neg_large_le
    norm_num at this ⊢
    linarith
  have hdpos : 0 < 1 + Real.exp (-(17.5775 : ℝ)) := by positivity
  have hdle : 1 + Real.exp (-(17.5775 : ℝ)) ≤ 17 / 16 := by linarith
  calc (0.9 : ℝ) < 1 / (17 / 16) := by norm_num
    _ ≤ 1 / (1 + Real.exp (-(17.5775 : ℝ))) :=
        one_div_le_one_div_of_le hdpos hdle

theorem predict_le_half_of_nonpos (m : RiskModel) (x : Fin 4 → ℝ)
    (hz : m.z x ≤ 0) : m.predict x ≤ 1 / 2 := by
  unfold RiskModel.predict
  have h1 : (1 : ℝ) ≤ Real.exp (-(m.z x)) := Real.one_le_exp (by linarith)
  have hpos : (0 : ℝ) < 1 + Real.exp (-(m.z x)) := by positivity
  rw [div_le_div_iff hpos (by norm_num)]
  linarith

/-- After the first cold-start `update(·, 0.0)`, the linear score is
negative: the gradient step subtracts `η·σ(z₀)·(1+‖x‖²) > 0.005·0.9·5381.81`
from `(1-ηλ)·17.5775`. -/
theorem coldStart_z_one_neg :
    (coldStartModelAfter 1).z coldStartFeatures < 0 := by
  show (defaultRiskModel.update coldStartFeatures 0).z coldStartFeatures < 0
  rw [z_update_label_zero, coldStart_z_value, coldStart_sumsq]
  have hp09 := coldStart_predict_gt
  have hp1 := predict_lt_one defaultRiskModel coldStartFeatures
  have hlr : defaultRiskModel.learning_rate = 5e-3 := rfl
  have hl2 : defaultRiskModel.l2_penalty = 5e-4 := rfl
  rw [hlr, hl2]
  nlinarith

theorem coldStart_z_neg :
    ∀ n : ℕ, 1 ≤ n → (coldStartModelAfter n).z coldStartFeatures < 0
  | 1, _ => coldStart_z_one_neg
  | n + 2, _ => by
    have ih := coldStart_z_neg (n + 1) (by omega)
    show ((coldStartModelAfter (n + 1)).update coldStartFeatures 0).z
        coldStartFeatures < 0
    refine z_update_neg _ _ ?_ ?_ (le_of_lt ih)
    · rw [coldStart_learning_rate]
      norm_num
    · rw [coldStart_learning_rate, coldStart_l2_penalty]
      norm_num

/-! ## C8 — risk-model cold start -/

/-- C8: with the cold-start defaults, `predict([0.01, 14, 72, 0.9]) > 0.9`;
after ten `update` calls with label `0.0` on the same vector, the prediction
is strictly smaller than the original (it has in fact dropped below `1/2`,
because the linear score goes negative after the first step and stays
negative). -/
theorem C8_risk_model_cold_start :
    (0.9 : ℝ) < defaultRiskModel.predict coldStartFeatures ∧
    (coldStartModelAfter 10).predict coldStartFeatures <
      defaultRiskModel.predict coldStartFeatures := by
  refine ⟨coldStart_predict_gt, ?_⟩
  have h10 : (coldStartModelAfter 10).z coldStartFeatures ≤ 0 :=
    le_of_lt (coldStart_z_neg 10 (by norm_num))
  have hhalf := predict_le_half_of_nonpos (coldStartModelAfter 10)
    coldStartFeatures h10
  have h09 := coldStart_predict_gt
  linarith

/-! ## C7 — fused ML scoring in `predict_risk` -/

/-- C7 (amended): for every event on the `predict_risk` path, the surfaced
`logistic_probability` is exactly the model's prediction on the feature
vector — `pc` is carried separately as `raw_probability` and the two are
never combined with `max` — and a `CollisionRisk`/`Critical` alert is
published precisely when the prediction reaches `0.6`. -/
theorem C7_ml_scoring (m : RiskModel) (tenant : String) (threshold : ℝ)
    (event : ConjunctionEventH) (baselineRisk : ℝ) :
    (predictRiskProcessEvent m tenant threshold event baselineRisk).1.logistic_probability =
      m.predict ![max event.dmin_km 0.001, event.relative_velocity_km_s,
        max event.tle_age_a_hours event.tle_age_b_hours, baselineRisk] ∧
    (predictRiskProcessEvent m tenant threshold event baselineRisk).1.raw_probability =
      event.pc ∧
    ((0.6 : ℝ) ≤ m.predict ![max event.dmin_km 0.001,
        event.relative_velocity_km_s,
        max event.tle_age_a_hours event.tle_age_b_hours, baselineRisk] →
      (predictRiskProcessEvent m tenant threshold event baselineRisk).2.1 =
        some { tenant_id := tenant, severity := .critical,
               category := .collisionRisk }) ∧
    (m.predict ![max event.dmin_km 0.001, event.relative_velocity_km_s,
        max event.tle_age_a_hours event.tle_age_b_hours, baselineRisk] < 0.6 →
      (predictRiskProcessEvent m tenant threshold event baselineRisk).2.1 =
        none) := by
  refine ⟨rfl, rfl, ?_, ?_⟩
  · intro h
    show (if (0.6 : ℝ) ≤ m.predict _ then _ else _) = _
    rw [if_pos h]
  · intro h
    show (if (0.6 : ℝ) ≤ m.predict _ then _ else _) = _
    rw [if_neg (not_le.mpr h)]

/-- The feature vector `predict_risk` builds for `highPcEvent` with baseline
risk `0.9` is the cold-start scenario vector. -/
theorem highPcEvent_features_eq :
    (![max highPcEvent.dmin_km 0.001, highPcEvent.relative_velocity_km_s,
      max highPcEvent.tle_age_a_hours highPcEvent.tle_age_b_hours,
      (0.9 : ℝ)] : Fin 4 → ℝ) = coldStartFeatures := by
  funext i
  fin_cases i <;> simp [highPcEvent, coldStartFeatures] <;> norm_num

/-- C7 witness: on the concrete high-probability event the model predicts
above `0.6`, and the `Critical`/`CollisionRisk` alert is published. -/
theorem C7_witness :
    (predictRiskProcessEvent defaultRiskModel "default" 1e-4 highPcEvent 0.9).2.1 =
      some { tenant_id := "default", severity := .critical,
             category := .collisionRisk } := by
  refine (C7_ml_scoring defaultRiskModel "default" 1e-4 highPcEvent 0.9).2.2.1 ?_
  rw [highPcEvent_features_eq]
  have := coldStart_predict_gt
  linarith

/-- C7 counterexample: on `highPcEvent` (analytic `pc = 1`) the surfaced
probability is the model's logistic prediction, which is strictly below 1 —
so it is *not* `max(pc, ml_prob) = 1`. -/
theorem C7_counterexample :
    (predictRiskProcessEvent defaultRiskModel "default" 1e-4 highPcEvent
        0.9).1.logistic_probability ≠
      max highPcEvent.pc
        ((predictRiskProcessEvent defaultRiskModel "default" 1e-4 highPcEvent
          0.9).1.logistic_probability) := by
  have hml : (predictRiskProcessEvent defaultRiskModel "default" 1e-4 highPcEvent
      0.9).1.logistic_probability =
      defaultRiskModel.predict ![max highPcEvent.dmin_km 0.001,
        highPcEvent.relative_velocity_km_s,
        max highPcEvent.tle_age_a_hours highPcEvent.tle_age_b_hours,
        (0.9 : ℝ)] := rfl
  have hlt : defaultRiskModel.predict ![max highPcEvent.dmin_km 0.001,
      highPcEvent.relative_velocity_km_s,
      max highPcEvent.tle_age_a_hours highPcEvent.tle_age_b_hours,
      (0.9 : ℝ)] < 1 := predict_lt_one _ _
  have hpc : highPcEvent.pc = 1 := rfl
  rw [hml, hpc, max_eq_left (le_of_lt hlt)]
  exact ne_of_lt hlt

/-! ## C10 — highest severity excludes overlap conflicts -/

/-- C10: `evaluate_conflicts_internal` computes `highest_severity` over the
catalog-satellite conflicts only — the value is independent of the other
reservations, whose overlap conflicts (always of severity `High` or
`Medium`) are appended to the conflicts list afterwards; in particular an
evaluation with no catalog conflicts reports `highest_severity = Low`
whatever overlap conflicts it returns. -/
theorem C10_highest_severity_excludes_overlap
    (checkSat : SatelliteData → Option ReservationConflict)
    (pos : EciPropagator) (reservation : OrbitReservation)
    (catalog : List SatelliteData)
    (others othersB : List OrbitReservation) :
    (evaluate_conflicts_internal checkSat pos reservation catalog
        others).highest_severity =
      (evaluate_conflicts_internal checkSat pos reservation catalog
        othersB).highest_severity ∧
    (evaluate_conflicts_internal checkSat pos reservation catalog
        others).conflicts =
      catalog.filterMap checkSat ++
        (others.filter (fun o => o.id ≠ reservation.id)).filterMap
          (check_reservation_overlap pos reservation) ∧
    (∀ (other : OrbitReservation) (c : ReservationConflict),
      check_reservation_overlap pos reservation other = some c →
      c.severity = ConflictSeverity.high ∨
        c.severity = ConflictSeverity.medium) ∧
    (catalog.filterMap checkSat = [] →
      (evaluate_conflicts_internal checkSat pos reservation catalog
        others).highest_severity = ConflictSeverity.low) := by
  refine ⟨rfl, rfl, ?_, ?_⟩
  · intro other c hsome
    unfold check_reservation_overlap at hsome
    split at hsome
    · exact absurd hsome (by simp)
    · simp only [] at hsome
      split at hsome
      all_goals try split at hsome
      all_goals
        first
          | (injection hsome with hsome; subst hsome; exact Or.inl rfl)
          | (injection hsome with hsome; subst hsome; exact Or.inr rfl)
          | cases hsome
  · intro h
    unfold evaluate_conflicts_internal
    dsimp only
    rw [h]
    rfl

/-- C10 witness: with an empty catalog and one overlapping reservation the
response's `highest_severity` is `Low` even though the (appended) overlap
conflict carries severity `Medium`. -/
theorem C10_witness :
    (evaluate_conflicts_internal (fun _ => none) zeroPropagator overlapResA []
        [overlapResB]).highest_severity = ConflictSeverity.low ∧
    (check_reservation_overlap zeroPropagator overlapResA overlapResB).map
        (·.severity) = some ConflictSeverity.medium ∧
    (overlapConflictSample.severity = ConflictSeverity.high ∨
      overlapConflictSample.severity = ConflictSeverity.medium) := by
  have hover : check_reservation_overlap zeroPropagator overlapResA overlapResB =
      some overlapConflictSample := by
    unfold check_reservation_overlap
    rw [if_neg (by norm_num [overlapResA, overlapResB])]
    have hdist : norm3 (fun i =>
        zeroPropagator overlapResA.center_tle
          (max overlapResA.start_time overlapResB.start_time +
            (min overlapResA.end_time overlapResB.end_time -
              max overlapResA.start_time overlapResB.start_time) / 2) i -
        zeroPropagator overlapResB.center_tle
          (max overlapResA.start_time overlapResB.start_time +
            (min overlapResA.end_time overlapResB.end_time -
              max overlapResA.start_time overlapResB.start_time) / 2) i) = 0 := by
      unfold norm3 zeroPropagator
      simp
    rw [if_pos (by
      rw [hdist]
      norm_num [overlapResA, overlapResB])]
    have hprio : ¬(overlapResA.priority_level = PriorityLevel.critical ∨
        overlapResB.priority_level = PriorityLevel.critical) := by
      simp [overlapResA, overlapResB]
    rw [if_neg hprio, hdist]
    simp only [overlapResA, overlapResB, rejectedSat, overlapConflictSample,
      Option.some.injEq, ReservationConflict.mk.injEq]
    norm_num
  have hthm := C10_highest_severity_excludes_overlap (fun _ => none)
    zeroPropagator overlapResA [] [overlapResB] [overlapResB]
  refine ⟨hthm.2.2.2 rfl, ?_, hthm.2.2.1 overlapResB overlapConflictSample hover⟩
  rw [hover]
  rfl

end OrbitalOS
